import Mathlib

/-
Verification of the user-profile cache-coherence layer of DocFlow
(`src/hooks/useUserQuery.ts` and its collaborators).

The TypeScript source is shallowly embedded:
* a JavaScript user object (`User`) is an association list of string fields;
  field access is `lookupField`, object spread `{...p, ...u}` is `spreadMerge`;
* `localStorage` is a string-keyed partial map, gated on `typeof window`;
* the react-query mutation callbacks (`onMutate` / `onError` / `onSuccess`)
  become explicit state-passing functions over a `SysState`;
* the react-query cache read path (stale / expiry / in-flight dedup), which
  lives in the library rather than in the repository, is modelled from the
  specification's Resource Cache contract.
-/

namespace DocFlow

/-- A user profile, i.e. a JavaScript object value of type `User`:
an association list from field name to field value.  Object literals have
pairwise distinct keys; where a statement needs that fact it carries an
explicit `Nodup` hypothesis. -/
abbrev Profile := List (String × String)

/-- JavaScript field access `p.k` on an object: the first binding of the key,
`none` when the field is absent. -/
def lookupField : Profile → String → Option String
  | [], _ => none
  | (k, v) :: rest, key => if k = key then some v else lookupField rest key

/-- JavaScript `Object.keys`: the (distinct) field names of an object. -/
def jsObjectKeys (u : Profile) : List String := (u.map Prod.fst).dedup

/-- JavaScript object spread `{...p, ...u}` (source line 73-76): every field
of `p`, overridden by the fields of `u`, plus the fields of `u` that `p`
lacks. -/
def spreadMerge (p u : Profile) : Profile :=
  p.map (fun kv => (kv.1, (lookupField u kv.1).getD kv.2)) ++
    u.filter (fun kv => (lookupField p kv.1).isNone)

theorem lookupField_append_some {a : Profile} {k v : String} (b : Profile)
    (h : lookupField a k = some v) : lookupField (a ++ b) k = some v := by
  induction a with
  | nil => simp [lookupField] at h
  | cons hd tl ih =>
    obtain ⟨k1, v1⟩ := hd
    simp only [lookupField, List.cons_append] at h ⊢
    by_cases hk : k1 = k
    · simpa [hk] using h
    · simp only [if_neg hk] at h ⊢
      exact ih h

theorem lookupField_append_none {a : Profile} {k : String} (b : Profile)
    (h : lookupField a k = none) : lookupField (a ++ b) k = lookupField b k := by
  induction a with
  | nil => simp
  | cons hd tl ih =>
    obtain ⟨k1, v1⟩ := hd
    simp only [lookupField, List.cons_append] at h ⊢
    by_cases hk : k1 = k
    · simp [hk] at h
    · simp only [if_neg hk] at h ⊢
      exact ih h

theorem lookupField_spreadMap_some {p u : Profile} {k v : String}
    (h : lookupField p k = some v) :
    lookupField (p.map (fun kv => (kv.1, (lookupField u kv.1).getD kv.2))) k =
      some ((lookupField u k).getD v) := by
  induction p with
  | nil => simp [lookupField] at h
  | cons hd tl ih =>
    obtain ⟨k1, v1⟩ := hd
    simp only [lookupField, List.map_cons] at h ⊢
    by_cases hk : k1 = k
    · subst hk
      simp only [if_pos rfl] at h ⊢
      simp [← Option.some_inj.mp h]
    · simp only [if_neg hk] at h ⊢
      exact ih h

theorem lookupField_spreadMap_none {p u : Profile} {k : String}
    (h : lookupField p k = none) :
    lookupField (p.map (fun kv => (kv.1, (lookupField u kv.1).getD kv.2))) k = none := by
  induction p with
  | nil => simp [lookupField]
  | cons hd tl ih =>
    obtain ⟨k1, v1⟩ := hd
    simp only [lookupField] at h ⊢
    split at h
    · simp at h
    · simp_all

theorem lookupField_filter_of_absent {p u : Profile} {k : String}
    (h : lookupField p k = none) :
    lookupField (u.filter (fun kv => (lookupField p kv.1).isNone)) k =
      lookupField u k := by
  induction u with
  | nil => simp
  | cons hd tl ih =>
    obtain ⟨k1, v1⟩ := hd
    by_cases hk : k1 = k
    · subst hk
      simp [List.filter_cons, h, lookupField]
    · simp only [List.filter_cons]
      split
      · simp [lookupField, hk, ih]
      · simp [lookupField, hk] at ih ⊢
        exact ih

/-- Spread semantics, override case: a key of the update takes its value from
the update. -/
theorem lookupField_spreadMerge_some {p u : Profile} {k v : String}
    (h : lookupField u k = some v) : lookupField (spreadMerge p u) k = some v := by
  unfold spreadMerge
  cases hp : lookupField p k with
  | some w =>
    have := lookupField_spreadMap_some (u := u) hp
    rw [h] at this
    exact lookupField_append_some _ this
  | none =>
    rw [lookupField_append_none _ (lookupField_spreadMap_none hp),
      lookupField_filter_of_absent hp, h]

/-- Spread semantics, frame case: a field not touched by the update keeps the
value it has in the base object. -/
theorem lookupField_spreadMerge_none {p u : Profile} {k : String}
    (h : lookupField u k = none) :
    lookupField (spreadMerge p u) k = lookupField p k := by
  unfold spreadMerge
  cases hp : lookupField p k with
  | some w =>
    have := lookupField_spreadMap_some (u := u) hp
    rw [h] at this
    exact lookupField_append_some _ this
  | none =>
    rw [lookupField_append_none _ (lookupField_spreadMap_none hp),
      lookupField_filter_of_absent hp, h]

/-- Browser `localStorage.setItem`. -/
def lsSet (s : String → Option String) (k v : String) : String → Option String :=
  fun q => if q = k then some v else s q

/-- Browser `localStorage.removeItem`; removing an absent key is a no-op, never
an error. -/
def lsRemove (s : String → Option String) (k : String) : String → Option String :=
  fun q => if q = k then none else s q

/-- The client-side state the hooks in `useUserQuery.ts` read and write:
the react-query cache entry for the profile key (payload, invalidation mark,
fetch-in-flight mark), the browser `localStorage`, whether a `window` object
exists (`typeof window !== 'undefined'`), and whether navigation to `/auth`
has happened. -/
structure SysState where
  cache : Option Profile
  invalidated : Bool
  inFlight : Bool
  store : String → Option String
  hasWindow : Bool
  navigated : Bool

/-- Model of `JSON.stringify` on a user object (an opaque injective-enough
serialization; the claims only ever carry it around). -/
def stringifyProfile (p : Profile) : String :=
  String.intercalate "," (p.map (fun kv => kv.1 ++ ":" ++ kv.2))

/-- The `localStorage.setItem('user_profile', JSON.stringify(p))` step that the
source guards with `typeof window !== 'undefined'` (lines 26-28 and 98-100);
outside a browser it is a no-op. -/
def mirrorSave (s : SysState) (p : Profile) : SysState :=
  if s.hasWindow then { s with store := lsSet s.store "user_profile" (stringifyProfile p) } else s

/-- JavaScript truthiness of a `string | null` value: `null` and the empty
string are falsy, every other string is truthy. -/
def truthyStr : Option String → Bool
  | none => false
  | some s => s ≠ ""

/-- The nested body of `authApi.getCurrentUser()`: `{data: Profile | null}`. -/
structure GetCurrentUserData where
  data : Option Profile

/-- The response of `authApi.getCurrentUser()`:
`{data: {data: Profile} | null, error: string | null}`. -/
structure GetCurrentUserResponse where
  data : Option GetCurrentUserData
  error : Option String

/-- The `error` argument of `new Error(error || '获取用户信息失败')`
(source line 22): the error string when truthy, the default message
otherwise. -/
def fetchErrMsg (error : Option String) : String :=
  match error with
  | some e => if e = "" then "获取用户信息失败" else e
  | none => "获取用户信息失败"

/-- The `queryFn` of `useUserQuery` (source lines 18-31): destructure
`{data, error}`; `if (error || !data || !data.data) throw`; otherwise write
the profile to `localStorage` (browser only) and return it.  Objects are
truthy, so the nested payload check is presence of `data.data`. -/
def userQueryFn (resp : GetCurrentUserResponse) (s : SysState) :
    Except String Profile × SysState :=
  match resp.data with
  | some d =>
    match d.data with
    | some p =>
      if truthyStr resp.error then (Except.error (fetchErrMsg resp.error), s)
      else (Except.ok p, mirrorSave s p)
    | none => (Except.error (fetchErrMsg resp.error), s)
  | none => (Except.error (fetchErrMsg resp.error), s)

/-- The guard `error || !data || !data.data` of source line 21, as the code
evaluates it (JavaScript truthiness). -/
def fetchGuard (resp : GetCurrentUserResponse) : Bool :=
  truthyStr resp.error ||
    match resp.data with
    | none => true
    | some d => d.data.isNone

/-- `getLocalUserData` (source lines 40-54): `undefined` outside a browser;
read `localStorage['user_profile']`; a `null` or `''` (falsy) entry is skipped;
`JSON.parse` is modelled by the `parse` argument, `none` meaning it throws, in
which case the `catch` logs a warning and `undefined` is returned.  The second
component records whether the warning was logged. -/
def getLocalUserData (parse : String → Option Profile) (s : SysState) :
    Option Profile × Bool :=
  if s.hasWindow then
    match s.store "user_profile" with
    | some str =>
      if str = "" then (none, false)
      else
        match parse str with
        | some p => (some p, false)
        | none => (none, true)
    | none => (none, false)
  else (none, false)

/-- The rollback context returned by `onMutate` (source line 80). -/
structure MutationContext where
  previousUser : Option Profile

/-- `useUpdateUserMutation.onMutate` (source lines 64-81): cancel in-flight
queries, snapshot the cached user, and — only if a cached user exists — write
the spread-merge `{...previousUser, ...updates}` into the cache. -/
def updateOnMutate (updates : Profile) (s : SysState) : SysState × MutationContext :=
  let s1 : SysState := { s with inFlight := false }
  let previousUser := s1.cache
  let s2 : SysState :=
    match previousUser with
    | some prev => { s1 with cache := some (spreadMerge prev updates) }
    | none => s1
  (s2, ⟨previousUser⟩)

/-- `useUpdateUserMutation.onError` (source lines 82-90): restore the snapshot
when one exists (`if (context?.previousUser)`; a user object is truthy), else
leave the state alone.  The console/toast calls carry no state. -/
def updateOnError (ctx : MutationContext) (s : SysState) : SysState :=
  match ctx.previousUser with
  | some prev => { s with cache := some prev }
  | none => s

/-- `useUpdateUserMutation.onSuccess` (source lines 91-104): invalidate the
profile query, re-read the cache, persist the re-read payload to
`localStorage` when present and in a browser, and toast
`Object.keys(variables).length` as the updated-field count (returned as the
second component). -/
def updateOnSuccess (updates : Profile) (s : SysState) : SysState × Nat :=
  let s1 : SysState := { s with invalidated := true }
  let currentUser := s1.cache
  let s2 : SysState :=
    match currentUser with
    | some cu => mirrorSave s1 cu
    | none => s1
  (s2, (jsObjectKeys updates).length)

/-- The response of `authApi.logout()`: `{error?: string}`. -/
structure LogoutResponse where
  error : Option String

/-- Modelled from the spec: `authApi.logout` (in `src/services/auth`, which is
not part of the sources) calls the remote authority through the opaque
`fetch -> {data, error}` capability, so its errors are in-band — the returned
promise resolves with `{error?: string}` and never rejects. -/
def authApiLogout (r : LogoutResponse) : Except String LogoutResponse :=
  Except.ok r

/-- The five session keys cleared on logout (source lines 122-126). -/
def sessionKeys : List String :=
  ["user_profile", "auth_token", "refresh_token", "expires_in", "refresh_expires_in"]

/-- The five `localStorage.removeItem` calls of `useLogoutMutation.onSuccess`
(source lines 122-126). -/
def clearSessionKeys (st : String → Option String) : String → Option String :=
  lsRemove (lsRemove (lsRemove (lsRemove (lsRemove st "user_profile") "auth_token") "refresh_token") "expires_in") "refresh_expires_in"

/-- `useLogoutMutation.onSuccess` (source lines 116-133): remove every query
under the `['user']` key (the profile entry), remove the five session keys from
`localStorage` (browser only), and set `window.location.href = '/auth'`. -/
def logoutOnSuccess (s : SysState) : SysState :=
  let s1 : SysState := { s with cache := none, invalidated := false, inFlight := false }
  let s2 : SysState :=
    if s1.hasWindow then { s1 with store := clearSessionKeys s1.store } else s1
  { s2 with navigated := true }

/-- `useLogoutMutation.onError` (source lines 134-137): log and toast only; no
state change. -/
def logoutOnError (s : SysState) : SysState := s

/-- One full run of the logout mutation: `mutationFn` awaits
`authApiLogout`, then react-query dispatches `onSuccess` on a resolved promise
and `onError` on a rejected one. -/
def runLogout (r : LogoutResponse) (s : SysState) : SysState :=
  match authApiLogout r with
  | Except.ok _ => logoutOnSuccess s
  | Except.error _ => logoutOnError s

/-- The options object passed to `useQuery` in `useUserQuery`
(source lines 32-35). -/
structure UseQueryConfig where
  staleTime : Nat
  gcTime : Nat
  refetchOnWindowFocus : Bool
  retry : Nat

/-- The configuration of `useUserQuery`: `staleTime: 5 * 60 * 1000`,
`gcTime: 30 * 60 * 1000`, `refetchOnWindowFocus: false`, `retry: 3`. -/
def userQueryConfig : UseQueryConfig :=
  { staleTime := 5 * 60 * 1000
    gcTime := 30 * 60 * 1000
    refetchOnWindowFocus := false
    retry := 3 }

/-- A cache entry for the profile key in the Resource Cache: payload,
last-fetched timestamp (milliseconds), and invalidation mark. -/
structure CacheEntry where
  payload : Option Profile
  lastFetched : Nat
  invalid : Bool

/-- The Resource Cache state for the profile key: the entry (if any) and
whether a fetch is in flight. -/
structure ReadState where
  entry : Option CacheEntry
  fetchInFlight : Bool

/-- What one read does when it arrives at the cache. -/
inductive ReadAction where
  | serveCached : Profile → ReadAction
  | awaitInFlight : ReadAction
  | startFetch : ReadAction
deriving DecidableEq

/-- A valid (servable without network) entry exists: a payload is present, the
entry is not invalidated, and the entry is younger than both the staleness and
the hard-expiry thresholds. -/
def validEntryExists (cfg : UseQueryConfig) (now : Nat) (s : ReadState) : Prop :=
  ∃ e p, s.entry = some e ∧ e.payload = some p ∧ e.invalid = false ∧
    now - e.lastFetched < cfg.staleTime ∧ now - e.lastFetched < cfg.gcTime

instance (cfg : UseQueryConfig) (now : Nat) (s : ReadState) :
    Decidable (validEntryExists cfg now s) := by
  unfold validEntryExists
  cases s.entry with
  | none => exact Decidable.isFalse (by simp)
  | some e =>
    cases hp : e.payload with
    | none => exact Decidable.isFalse (by simp [hp])
    | some p =>
      exact decidable_of_iff
        (e.invalid = false ∧ now - e.lastFetched < cfg.staleTime ∧
          now - e.lastFetched < cfg.gcTime)
        (by constructor
            · rintro ⟨h1, h2, h3⟩; exact ⟨e, p, rfl, hp, h1, h2, h3⟩
            · rintro ⟨e1, p1, he, hp1, h1, h2, h3⟩
              cases Option.some_inj.mp he
              exact ⟨h1, h2, h3⟩)

/-- Modelled from the spec: the Resource Cache read path (spec section 4.1);
the machinery lives in `@tanstack/react-query`, outside the sources.  A read
serves a fresh, unexpired, uninvalidated payload without network; otherwise it
awaits an in-flight fetch if one exists (deduping concurrent readers), and
only otherwise marks a fetch in flight and invokes the fetcher.  An entry
older than the hard-expiry threshold is a miss even when a payload is
present. -/
def readStep (cfg : UseQueryConfig) (now : Nat) (s : ReadState) :
    ReadAction × ReadState :=
  match s.entry with
  | some e =>
    match e.payload with
    | some p =>
      if e.invalid = false ∧ now - e.lastFetched < cfg.staleTime ∧
          now - e.lastFetched < cfg.gcTime then
        (ReadAction.serveCached p, s)
      else if s.fetchInFlight then (ReadAction.awaitInFlight, s)
      else (ReadAction.startFetch, { s with fetchInFlight := true })
    | none =>
      if s.fetchInFlight then (ReadAction.awaitInFlight, s)
      else (ReadAction.startFetch, { s with fetchInFlight := true })
  | none =>
    if s.fetchInFlight then (ReadAction.awaitInFlight, s)
    else (ReadAction.startFetch, { s with fetchInFlight := true })

/-- The payload a reader resolves with: the cached payload when served from the
cache, otherwise the payload of the (single) fetch it awaits. -/
def resolveRead (a : ReadAction) (fetched : Profile) : Profile :=
  match a with
  | ReadAction.serveCached p => p
  | ReadAction.awaitInFlight => fetched
  | ReadAction.startFetch => fetched

/-- How many fetcher invocations the action performs. -/
def fetchCountOf (a : ReadAction) : Nat :=
  match a with
  | ReadAction.startFetch => 1
  | _ => 0

/-- Modelled from the spec: two concurrent reads under the cooperative
concurrency model (spec section 5) — both readers run their cache step before
the network responds with `fetched`; each resolves via `resolveRead`.  Returns
both results and the number of fetcher invocations. -/
def runTwoConcurrentReads (cfg : UseQueryConfig) (now : Nat) (s : ReadState)
    (fetched : Profile) : Profile × Profile × Nat :=
  let r1 := readStep cfg now s
  let r2 := readStep cfg now r1.2
  (resolveRead r1.1 fetched, resolveRead r2.1 fetched,
    fetchCountOf r1.1 + fetchCountOf r2.1)

/-! Concrete instances used to exercise the definitions. -/

/-- An empty `localStorage`. -/
def emptyStore : String → Option String := fun _ => none

/-- A browser-side state with an empty cache and empty storage. -/
def baseState : SysState :=
  { cache := none, invalidated := false, inFlight := false,
    store := emptyStore, hasWindow := true, navigated := false }

/-- The profile `\x7bname: "Bob", email: "b@x.com"\x7d` of the specification's
examples. -/
def pBob : Profile := [("name", "Bob"), ("email", "b@x.com")]

/-- A browser-side state whose cache holds `pBob`. -/
def bobState : SysState := { baseState with cache := some pBob }

/-- A browser-side state whose persisted `user_profile` entry is unparseable. -/
def corruptState : SysState :=
  { baseState with store := fun k => if k = "user_profile" then some "corrupt" else none }

/-- A cache state with no entry and no fetch in flight. -/
def coldReadState : ReadState := { entry := none, fetchInFlight := false }

/-! Helper lemmas about the logout teardown, shared by the teardown claims. -/

theorem clearSessionKeys_eq_none (st : String → Option String) (k : String)
    (hk : k ∈ sessionKeys) : clearSessionKeys st k = none := by
  simp only [sessionKeys, List.mem_cons, List.not_mem_nil, or_false] at hk
  rcases hk with rfl | rfl | rfl | rfl | rfl <;> rfl

theorem runLogout_eq_onSuccess (r : LogoutResponse) (s : SysState) :
    runLogout r s = logoutOnSuccess s := rfl

theorem logoutOnSuccess_cache (s : SysState) : (logoutOnSuccess s).cache = none := by
  unfold logoutOnSuccess
  by_cases h : s.hasWindow <;> simp [h]

theorem logoutOnSuccess_navigated (s : SysState) :
    (logoutOnSuccess s).navigated = true := by
  unfold logoutOnSuccess
  by_cases h : s.hasWindow <;> simp [h]

theorem logoutOnSuccess_hasWindow (s : SysState) :
    (logoutOnSuccess s).hasWindow = s.hasWindow := by
  unfold logoutOnSuccess
  by_cases h : s.hasWindow <;> simp [h]

theorem logoutOnSuccess_store (s : SysState) (hw : s.hasWindow = true) :
    (logoutOnSuccess s).store = clearSessionKeys s.store := by
  unfold logoutOnSuccess
  simp [hw]

/-! Helper lemma about the read path, shared by the read claims. -/

theorem readStep_of_no_valid (cfg : UseQueryConfig) (now : Nat) (s : ReadState)
    (h : ¬ validEntryExists cfg now s) :
    readStep cfg now s =
      (if s.fetchInFlight then (ReadAction.awaitInFlight, s)
        else (ReadAction.startFetch, { s with fetchInFlight := true })) := by
  unfold readStep
  cases he : s.entry with
  | none => rfl
  | some e =>
    cases hp : e.payload with
    | none => simp only [hp]
    | some p =>
      have hcond : ¬ (e.invalid = false ∧ now - e.lastFetched < cfg.staleTime ∧
          now - e.lastFetched < cfg.gcTime) := by
        rintro ⟨h1, h2, h3⟩
        exact h ⟨e, p, he, hp, h1, h2, h3⟩
      simp only [hp, if_neg hcond]

theorem validEntryExists_congr_entry (cfg : UseQueryConfig) (now : Nat)
    (s t : ReadState) (hst : s.entry = t.entry) :
    validEntryExists cfg now s ↔ validEntryExists cfg now t := by
  unfold validEntryExists
  rw [hst]

/-! The claims. -/

/-- C1: for every remote logout result, the logout teardown purges the profile
cache entry, clears all five persisted session keys, and hands off to the
navigate-to-login collaborator — the remote result `r` is universally
quantified and none of the conclusions depend on it. -/
theorem logout_teardown_unconditional (r : LogoutResponse) (s : SysState)
    (hw : s.hasWindow = true) :
    (runLogout r s).cache = none ∧
    (∀ k, k ∈ sessionKeys → (runLogout r s).store k = none) ∧
    (runLogout r s).navigated = true := by
  rw [runLogout_eq_onSuccess]
  refine ⟨logoutOnSuccess_cache s, ?_, logoutOnSuccess_navigated s⟩
  intro k hk
  rw [logoutOnSuccess_store s hw]
  exact clearSessionKeys_eq_none s.store k hk

theorem logout_teardown_unconditional_witness :
    (runLogout ⟨some "server-error"⟩ bobState).cache = none ∧
    (runLogout ⟨some "server-error"⟩ bobState).store "auth_token" = none ∧
    (runLogout ⟨some "server-error"⟩ bobState).navigated = true := by
  have h := logout_teardown_unconditional ⟨some "server-error"⟩ bobState rfl
  exact ⟨h.1, h.2.1 "auth_token" (by decide), h.2.2⟩

/-- C2, as stated, is false: with an empty cache, `onMutate` performs no
optimistic write (`if (previousUser)`, source line 72), so no synchronous read
can return a profile named Alice. -/
theorem optimistic_visibility_counterexample :
    ¬ ∃ m, (updateOnMutate [("name", "Alice")] baseState).1.cache = some m ∧
      lookupField m "name" = some "Alice" := by
  rintro ⟨m, hm, -⟩
  simp [updateOnMutate, baseState] at hm

/-- C2, amended: for every optimistic update invoked while the cache holds a
profile, any key of the update (such as `name` set to Alice) is immediately
visible, with the update's value, in a synchronous read of the cache entry. -/
theorem optimistic_visibility (s : SysState) (p u : Profile) (k v : String)
    (hc : s.cache = some p) (hu : lookupField u k = some v) :
    ∃ m, (updateOnMutate u s).1.cache = some m ∧ lookupField m k = some v := by
  refine ⟨spreadMerge p u, ?_, lookupField_spreadMerge_some hu⟩
  simp [updateOnMutate, hc]

theorem optimistic_visibility_witness :
    ∃ m, (updateOnMutate [("name", "Alice")] bobState).1.cache = some m ∧
      lookupField m "name" = some "Alice" :=
  optimistic_visibility bobState pBob [("name", "Alice")] "name" "Alice" rfl (by decide)

/-- C3: after an optimistic update whose remote call fails, `onError` leaves
the cache exactly as it was before `onMutate` ran — the snapshot is restored
when one existed, and nothing changes when the cache was empty.  Stated
without hypotheses: the pre-mutation cache is recovered in every case. -/
theorem rollback_restores_cache (u : Profile) (s : SysState) :
    (updateOnError (updateOnMutate u s).2 (updateOnMutate u s).1).cache = s.cache := by
  cases hc : s.cache with
  | none => simp [updateOnMutate, updateOnError, hc]
  | some prev => simp [updateOnMutate, updateOnError, hc]

/-- C4: on a successful remote update, `onSuccess` invalidates the profile
entry without touching its payload, re-reads the cache and persists the
payload (browser-gated) when present, leaves the store alone when the cache is
empty, and reports the number of keys of the partial update. -/
theorem reconcile_on_success (u : Profile) (s : SysState)
    (hnd : (u.map Prod.fst).Nodup) :
    (updateOnSuccess u s).1.invalidated = true ∧
    (updateOnSuccess u s).1.cache = s.cache ∧
    (∀ c, s.cache = some c →
      (updateOnSuccess u s).1.store =
        (if s.hasWindow then lsSet s.store "user_profile" (stringifyProfile c)
          else s.store)) ∧
    (s.cache = none → (updateOnSuccess u s).1.store = s.store) ∧
    (updateOnSuccess u s).2 = u.length := by
  refine ⟨?_, ?_, ?_, ?_, ?_⟩
  · cases hc : s.cache <;>
      by_cases hw : s.hasWindow <;>
        simp [updateOnSuccess, mirrorSave, hc, hw]
  · cases hc : s.cache <;>
      by_cases hw : s.hasWindow <;>
        simp [updateOnSuccess, mirrorSave, hc, hw]
  · intro c hc
    by_cases hw : s.hasWindow <;> simp [updateOnSuccess, mirrorSave, hc, hw]
  · intro hc
    simp [updateOnSuccess, hc]
  · simp [updateOnSuccess, jsObjectKeys, hnd.dedup]

theorem reconcile_on_success_witness :
    (updateOnSuccess [("name", "Alice")] bobState).1.invalidated = true ∧
    (updateOnSuccess [("name", "Alice")] bobState).1.store =
      (if bobState.hasWindow then
        lsSet bobState.store "user_profile" (stringifyProfile pBob)
        else bobState.store) ∧
    (updateOnSuccess [("name", "Alice")] bobState).2 = 1 := by
  have h := reconcile_on_success [("name", "Alice")] bobState (by decide)
  exact ⟨h.1, h.2.2.1 pBob rfl, h.2.2.2.2⟩

/-- C5, as stated, is false: the guard is JavaScript truthiness, so a non-null
but empty `error` string on an otherwise well-formed response is treated as
success, not as a `FetchFailed`. -/
theorem fetch_failure_counterexample :
    (userQueryFn ⟨some ⟨some pBob⟩, some ""⟩ baseState).1 = Except.ok pBob ∧
    (⟨some ⟨some pBob⟩, some ""⟩ : GetCurrentUserResponse).error ≠ none := by
  constructor
  · rfl
  · simp

/-- C5, amended: the fetcher fails exactly when the guard
`error || !data || !data.data` holds — a *truthy* (non-null, non-empty) error
string or a missing/absent nested payload; on failure it surfaces the error
and leaves the state untouched (no Mirror fallback), and on success it returns
the profile and writes that same profile to the Mirror. -/
theorem fetch_protocol (resp : GetCurrentUserResponse) (s : SysState) :
    ((∃ e, (userQueryFn resp s).1 = Except.error e) ↔ fetchGuard resp = true) ∧
    (fetchGuard resp = true →
      userQueryFn resp s = (Except.error (fetchErrMsg resp.error), s)) ∧
    (∀ d p, resp.data = some d → d.data = some p → truthyStr resp.error = false →
      userQueryFn resp s = (Except.ok p, mirrorSave s p)) := by
  obtain ⟨od, oe⟩ := resp
  cases od with
  | none =>
    refine ⟨?_, ?_, ?_⟩
    · simp [userQueryFn, fetchGuard]
    · intro _; rfl
    · intro d p hd; simp at hd
  | some d =>
    obtain ⟨op⟩ := d
    cases op with
    | none =>
      refine ⟨?_, ?_, ?_⟩
      · simp [userQueryFn, fetchGuard]
      · intro _; rfl
      · intro d1 p hd hp
        cases Option.some_inj.mp hd
        simp at hp
    | some p =>
      by_cases he : truthyStr oe = true
      · refine ⟨?_, ?_, ?_⟩
        · simp [userQueryFn, fetchGuard, he]
        · intro _; simp [userQueryFn, he]
        · intro d1 p1 hd hp hetr
          rw [hetr] at he
          exact absurd he (by simp)
      · have he1 : truthyStr oe = false := by
          cases h : truthyStr oe
          · rfl
          · exact absurd h he
        refine ⟨?_, ?_, ?_⟩
        · simp [userQueryFn, fetchGuard, he1]
        · intro hg
          simp [fetchGuard, he1] at hg
        · intro d1 p1 hd hp _
          cases Option.some_inj.mp hd
          cases Option.some_inj.mp hp
          simp [userQueryFn, he1]

theorem fetch_protocol_witness :
    userQueryFn ⟨some ⟨some pBob⟩, none⟩ baseState =
      (Except.ok pBob, mirrorSave baseState pBob) ∧
    userQueryFn ⟨some ⟨some pBob⟩, some "boom"⟩ baseState =
      (Except.error "boom", baseState) := by
  constructor
  · exact (fetch_protocol ⟨some ⟨some pBob⟩, none⟩ baseState).2.2 ⟨some pBob⟩ pBob
      rfl rfl rfl
  · have h := (fetch_protocol ⟨some ⟨some pBob⟩, some "boom"⟩ baseState).2.1
      (by decide)
    simpa [fetchErrMsg] using h

/-- C6: `useUserQuery` is configured with a 5-minute staleness threshold, a
30-minute hard-expiry threshold, a retry bound of 3 and window-focus
revalidation disabled; and under the modelled read path, an entry older than
the hard-expiry threshold is treated as a miss — the read starts a fresh fetch
even though a payload is present. -/
theorem read_protocol_config (now : Nat) (e : CacheEntry) (s : ReadState) :
    userQueryConfig.staleTime = 5 * 60 * 1000 ∧
    userQueryConfig.gcTime = 30 * 60 * 1000 ∧
    userQueryConfig.retry = 3 ∧
    userQueryConfig.refetchOnWindowFocus = false ∧
    (s.entry = some e → e.payload.isSome = true →
      userQueryConfig.gcTime ≤ now - e.lastFetched → s.fetchInFlight = false →
      (readStep userQueryConfig now s).1 = ReadAction.startFetch) := by
  refine ⟨rfl, rfl, rfl, rfl, ?_⟩
  intro he hp hexp hif
  have hnv : ¬ validEntryExists userQueryConfig now s := by
    rintro ⟨e1, p1, he1, -, -, -, hlt⟩
    rw [he] at he1
    cases Option.some_inj.mp he1
    omega
  rw [readStep_of_no_valid userQueryConfig now s hnv, hif]
  simp

theorem read_protocol_config_witness :
    userQueryConfig.staleTime = 5 * 60 * 1000 ∧
    userQueryConfig.retry = 3 ∧
    userQueryConfig.refetchOnWindowFocus = false ∧
    (readStep userQueryConfig (30 * 60 * 1000)
      { entry := some { payload := some pBob, lastFetched := 0, invalid := false },
        fetchInFlight := false }).1 = ReadAction.startFetch := by
  have h := read_protocol_config (30 * 60 * 1000)
    { payload := some pBob, lastFetched := 0, invalid := false }
    { entry := some { payload := some pBob, lastFetched := 0, invalid := false },
      fetchInFlight := false }
  exact ⟨h.1, h.2.2.1, h.2.2.2.1, h.2.2.2.2 rfl rfl (by decide) rfl⟩

/-- C7: running the logout teardown twice in sequence — the second run on the
already-purged state — is modelled by total functions (nothing raises: every
`localStorage.removeItem` on an absent key and the query purge on an empty
cache are no-ops), the first run already empties the cache, and afterwards all
five persisted session keys are absent. -/
theorem teardown_idempotent (r1 r2 : LogoutResponse) (s : SysState)
    (hw : s.hasWindow = true) :
    (runLogout r1 s).cache = none ∧
    (∀ k, k ∈ sessionKeys → (runLogout r2 (runLogout r1 s)).store k = none) := by
  rw [runLogout_eq_onSuccess, runLogout_eq_onSuccess]
  refine ⟨logoutOnSuccess_cache s, ?_⟩
  intro k hk
  have hw1 : (logoutOnSuccess s).hasWindow = true := by
    rw [logoutOnSuccess_hasWindow]; exact hw
  rw [logoutOnSuccess_store _ hw1]
  exact clearSessionKeys_eq_none _ k hk

theorem teardown_idempotent_witness :
    (runLogout ⟨none⟩ baseState).cache = none ∧
    (runLogout ⟨none⟩ (runLogout ⟨none⟩ baseState)).store "refresh_token" = none := by
  have h := teardown_idempotent ⟨none⟩ ⟨none⟩ baseState rfl
  exact ⟨h.1, h.2 "refresh_token" (by decide)⟩

/-- C8: `getLocalUserData` never throws: it returns absent (without warning)
outside a browser and on absent stored data, and returns absent with a logged
warning when the stored data is unparseable. -/
theorem mirror_load_total (parse : String → Option Profile) (s : SysState) :
    (s.hasWindow = false → getLocalUserData parse s = (none, false)) ∧
    (s.store "user_profile" = none → getLocalUserData parse s = (none, false)) ∧
    (∀ str, s.hasWindow = true → s.store "user_profile" = some str → ¬ str = "" →
      parse str = none → getLocalUserData parse s = (none, true)) := by
  refine ⟨?_, ?_, ?_⟩
  · intro hw
    simp [getLocalUserData, hw]
  · intro hs
    by_cases hw : s.hasWindow <;> simp [getLocalUserData, hw, hs]
  · intro str hw hs hne hp
    simp [getLocalUserData, hw, hs, hne, hp]

theorem mirror_load_total_witness :
    getLocalUserData (fun _ => none) corruptState = (none, true) :=
  (mirror_load_total (fun _ => none) corruptState).2.2 "corrupt" rfl rfl
    (by decide) rfl

/-- C9: two reads that both arrive while no valid cache entry exists and no
fetch is in flight trigger exactly one fetcher invocation — the first starts
the fetch, the second awaits it — and both resolve to the same fetched
payload. -/
theorem concurrent_read_dedup (cfg : UseQueryConfig) (now : Nat) (s : ReadState)
    (v : Profile) (hnv : ¬ validEntryExists cfg now s)
    (hif : s.fetchInFlight = false) :
    runTwoConcurrentReads cfg now s v = (v, v, 1) := by
  have h1 := readStep_of_no_valid cfg now s hnv
  rw [hif] at h1
  simp only [Bool.false_eq_true, if_false] at h1
  have hnv1 : ¬ validEntryExists cfg now { s with fetchInFlight := true } := by
    intro hv
    exact hnv ((validEntryExists_congr_entry cfg now _ s rfl).mp hv)
  have h2 := readStep_of_no_valid cfg now { s with fetchInFlight := true } hnv1
  simp only [if_true] at h2
  simp [runTwoConcurrentReads, h1, h2, resolveRead, fetchCountOf]

theorem concurrent_read_dedup_witness :
    runTwoConcurrentReads userQueryConfig 0 coldReadState pBob = (pBob, pBob, 1) := by
  refine concurrent_read_dedup userQueryConfig 0 coldReadState pBob ?_ rfl
  rintro ⟨e, p, he, -⟩
  simp [coldReadState] at he

/-- C10: the optimistic apply step writes exactly the spread-merge of the
update over the cached profile: a field outside the update's keys keeps its
cached value, and every key of the update takes the update's value. -/
theorem optimistic_apply_is_merge (s : SysState) (p u : Profile)
    (hc : s.cache = some p) :
    (updateOnMutate u s).1.cache = some (spreadMerge p u) ∧
    ∀ k, (lookupField u k = none →
        lookupField (spreadMerge p u) k = lookupField p k) ∧
      (∀ v, lookupField u k = some v →
        lookupField (spreadMerge p u) k = some v) := by
  refine ⟨by simp [updateOnMutate, hc], fun k => ⟨?_, ?_⟩⟩
  · exact fun h => lookupField_spreadMerge_none h
  · exact fun v h => lookupField_spreadMerge_some h

theorem optimistic_apply_is_merge_witness :
    (updateOnMutate [("name", "Alice")] bobState).1.cache =
      some (spreadMerge pBob [("name", "Alice")]) ∧
    lookupField (spreadMerge pBob [("name", "Alice")]) "email" = some "b@x.com" ∧
    lookupField (spreadMerge pBob [("name", "Alice")]) "name" = some "Alice" := by
  have h := optimistic_apply_is_merge bobState pBob [("name", "Alice")] rfl
  exact ⟨h.1, (h.2 "email").1 (by decide), (h.2 "name").2 "Alice" (by decide)⟩

end DocFlow
